import Mathlib

/-!
Verification of the linebot-file service (main.go): a LINE webhook service
that connects users to Google Drive via OAuth and uploads media files.
The Firestore collections are modelled as association lists keyed by
document id; the Google Drive API is modelled by an explicit file-table
state together with a trace of remote calls; fallible remote calls
(token exchange, revocation POST) are modelled by oracle parameters.
-/

namespace LinebotFile

/-! ### Firestore-style keyed document stores -/

def fsGet {α : Type} (l : List (String × α)) (k : String) : Option α :=
  (l.find? (fun p => p.1 == k)).map (fun p => p.2)

def fsSet {α : Type} (l : List (String × α)) (k : String) (v : α) : List (String × α) :=
  (k, v) :: l.filter (fun p => p.1 != k)

def fsDelete {α : Type} (l : List (String × α)) (k : String) : List (String × α) :=
  l.filter (fun p => p.1 != k)

def countKey {α : Type} (l : List (String × α)) (k : String) : Nat :=
  (l.filter (fun p => p.1 == k)).length

/-! ### Substring search, as in isGoogleAuthError's manual scan -/

def subIn : List Char → List Char → Bool
  | sub, [] => sub.isEmpty
  | sub, c :: t => sub.isPrefixOf (c :: t) || subIn sub t

def strContains (s sub : String) : Bool := subIn sub.data s.data

/-! ### base64.URLEncoding, as used by generateState -/

def b64Alphabet : List Char :=
  "ABCDEFGHIJKLMNOPQRSTUVWXYZabcdefghijklmnopqrstuvwxyz0123456789-_".data

def b64Char (n : Nat) : Char := b64Alphabet.getD (n % 64) 'A'

def b64EncodeGroups : List Nat → List Char
  | b0 :: b1 :: b2 :: rest =>
    let c0 := b0 % 256
    let c1 := b1 % 256
    let c2 := b2 % 256
    b64Char (c0 / 4) :: b64Char (c0 % 4 * 16 + c1 / 16) ::
      b64Char (c1 % 16 * 4 + c2 / 64) :: b64Char (c2 % 64) :: b64EncodeGroups rest
  | [b0, b1] =>
    let c0 := b0 % 256
    let c1 := b1 % 256
    [b64Char (c0 / 4), b64Char (c0 % 4 * 16 + c1 / 16), b64Char (c1 % 16 * 4), '=']
  | [b0] =>
    let c0 := b0 % 256
    [b64Char (c0 / 4), b64Char (c0 % 4 * 16), '=', '=']
  | [] => []

/-- generateState: 16 random bytes (passed in as an oracle, modelling
crypto/rand.Read) encoded with base64.URLEncoding. -/
def generateState (randomBytes : List Nat) : String :=
  String.mk (b64EncodeGroups randomBytes)

def isB64UrlChar (c : Char) : Bool := b64Alphabet.contains c || c == '='

/-! ### OAuth configuration and the authorization URL -/

structure OAuthConfig where
  authURL : String
  clientID : String
  redirectURL : String
  scope : String
deriving DecidableEq

/-- An authorization URL, kept structured: base endpoint plus query
parameters (oauth2.Config.AuthCodeURL builds the textual URL from exactly
these key/value pairs, percent-escaping being a transport detail). -/
structure AuthURL where
  base : String
  params : List (String × String)
deriving DecidableEq

/-- Query parameters of AuthCodeURL(state, AccessTypeOffline, ApprovalForce),
in the sorted order produced by url.Values.Encode. -/
def authCodeParams (cfg : OAuthConfig) (state : String) : List (String × String) :=
  [("access_type", "offline"), ("approval_prompt", "force"), ("client_id", cfg.clientID),
   ("redirect_uri", cfg.redirectURL), ("response_type", "code"), ("scope", cfg.scope),
   ("state", state)]

def authCodeURL (cfg : OAuthConfig) (state : String) : AuthURL :=
  ⟨cfg.authURL, authCodeParams cfg state⟩

/-! ### Stored documents -/

/-- oauth2.Token as persisted in the user_tokens collection. -/
structure Token where
  accessToken : String
  refreshToken : String
  tokenType : String
  expiry : Nat
deriving DecidableEq

/-- The oauth_states document: user_id and created_at. -/
structure StateDoc where
  user_id : String
  created_at : Nat
deriving DecidableEq

abbrev StateMap := List (String × StateDoc)
abbrev TokenMap := List (String × Token)

/-- The two Firestore collections used by the service. -/
structure AppState where
  states : StateMap
  tokens : TokenMap
deriving DecidableEq

/-! ### The /connect_drive webhook branch (BeginAuthorization) -/

/-- The /connect_drive branch: generate a state nonce, store
\x7buser_id, created_at\x7d under it, and reply with the authorization URL.
`stateWriteOk` models whether the Firestore Set succeeds; on failure the
handler returns without replying (`none`). -/
def handleConnectDrive (stateWriteOk : Bool) (cfg : OAuthConfig) (st : AppState)
    (userID : String) (randomBytes : List Nat) (now : Nat) : Option (AuthURL × AppState) :=
  let state := generateState randomBytes
  if stateWriteOk then
    some (authCodeURL cfg state,
      { st with states := fsSet st.states state ⟨userID, now⟩ })
  else
    none

/-! ### The /oauth/callback handler (CompleteAuthorization) -/

inductive CallbackResult
  | stateNotFound
  | exchangeFailed
  | saveFailed
  | success (userID : String)
deriving DecidableEq

def CallbackResult.httpStatus : CallbackResult → Nat
  | .stateNotFound => 400
  | .exchangeFailed => 500
  | .saveFailed => 500
  | .success _ => 200

structure CallbackOut where
  result : CallbackResult
  st : AppState
  exchangeAttempted : Bool
deriving DecidableEq

/-- oauthCallbackHandler: look up the state doc (404-equivalent failure if
absent), defer its deletion (applied on every exit path after a successful
lookup), exchange the code (oracle `exchange`), and persist the token under
the user id (`tokenWriteOk` models the Firestore Set outcome). -/
def oauthCallbackHandler (exchange : String → Option Token) (tokenWriteOk : Bool)
    (st : AppState) (state code : String) : CallbackOut :=
  match fsGet st.states state with
  | none => ⟨.stateNotFound, st, false⟩
  | some stateData =>
    let afterDelete : StateMap := fsDelete st.states state
    match exchange code with
    | none => ⟨.exchangeFailed, { st with states := afterDelete }, true⟩
    | some token =>
      if tokenWriteOk then
        ⟨.success stateData.user_id,
          { states := afterDelete, tokens := fsSet st.tokens stateData.user_id token }, true⟩
      else
        ⟨.saveFailed, { st with states := afterDelete }, true⟩

/-- One full authorization cycle: the /connect_drive branch with a
successful state-store write (its success branch stores the nonce document
and replies with the URL), followed by the /oauth/callback handler invoked
with that nonce. -/
def fullAuthCycle (exchange : String → Option Token) (st : AppState)
    (userID : String) (randomBytes : List Nat) (now : Nat) (code : String) : CallbackOut :=
  let st1 : AppState :=
    { st with states := fsSet st.states (generateState randomBytes) ⟨userID, now⟩ }
  oauthCallbackHandler exchange true st1 (generateState randomBytes) code

/-! ### Error model and classification -/

inductive GoErr
  | apiErr (code : Nat) (msg : String)
  | oauth2TokenNotFound
  | otherErr (msg : String)
deriving DecidableEq

/-- The Error() string of each modelled error value. -/
def errMessage : GoErr → String
  | .apiErr code msg => "googleapi: Error " ++ toString code ++ ": " ++ msg
  | .oauth2TokenNotFound => "oauth2 token not found"
  | .otherErr msg => msg

/-- isGoogleAuthError: if the error is a googleapi.Error, classify by its
status code alone; otherwise scan the error text for "invalid_grant". -/
def isGoogleAuthError : Option GoErr → Bool
  | none => false
  | some (.apiErr code _) => code == 401 || code == 403
  | some e => strContains (errMessage e) "invalid_grant"

/-- getGoogleDriveService: token lookup keyed by user id; a missing document
yields ErrOauth2TokenNotFound before any Drive call is made. The returned
token stands for the authenticated Drive session. -/
def getGoogleDriveService (tokens : TokenMap) (userID : String) : Except GoErr Token :=
  match fsGet tokens userID with
  | none => Except.error GoErr.oauth2TokenNotFound
  | some token => Except.ok token

/-! ### Google Drive model -/

structure DriveFile where
  id : String
  name : String
  parents : List String
  isFolder : Bool
  trashed : Bool
  createdSeq : Nat
  webViewLink : String
deriving DecidableEq

structure DriveState where
  files : List DriveFile
  nextID : Nat
deriving DecidableEq

def emptyDrive : DriveState := ⟨[], 0⟩

/-- Server-assigned ids, drawn from a fresh-id counter. -/
def driveID (n : Nat) : String := "id-" ++ toString n

inductive DriveCall
  | listFolders (name parent : String)
  | createFolder (name parent : String)
  | listFiles (parent : String)
  | createFile (name parent : String)
deriving DecidableEq

/-- The folder query predicate:
mimeType folder and trashed=false and name=name and parentID in parents. -/
def folderQueryPred (name parentID : String) (f : DriveFile) : Bool :=
  f.isFolder && !f.trashed && f.name == name && f.parents.contains parentID

def matchingFolders (d : DriveState) (name parentID : String) : List DriveFile :=
  d.files.filter (folderQueryPred name parentID)

def countMatching (d : DriveState) (name parentID : String) : Nat :=
  (matchingFolders d name parentID).length

structure FolderOut where
  id : String
  st : DriveState
  calls : List DriveCall
deriving DecidableEq

/-- The folder resource created when the query comes back empty. -/
def newFolder (d : DriveState) (name parentID : String) : DriveFile :=
  ⟨driveID d.nextID, name, [parentID], true, false, d.nextID,
    "https://drive.google.com/drive/folders/" ++ driveID d.nextID⟩

/-- findOrCreateFolder: list with PageSize(1); if a folder is found return
its id, otherwise create the folder with the given parent. -/
def findOrCreateFolder (d : DriveState) (name parentID : String) : FolderOut :=
  match matchingFolders d name parentID with
  | f :: _ => ⟨f.id, d, [DriveCall.listFolders name parentID]⟩
  | [] =>
    ⟨driveID d.nextID, ⟨d.files ++ [newFolder d name parentID], d.nextID + 1⟩,
      [DriveCall.listFolders name parentID, DriveCall.createFolder name parentID]⟩

def rootFolderName : String := "LINE Bot Uploads"

/-- Newest-created first, the OrderBy("createdTime desc") order. -/
def newerFirst (a b : DriveFile) : Prop := b.createdSeq ≤ a.createdSeq

instance : DecidableRel newerFirst := fun a b => Nat.decLe b.createdSeq a.createdSeq

instance : IsTotal DriveFile newerFirst :=
  ⟨fun a b => Nat.le_total b.createdSeq a.createdSeq⟩

instance : IsTrans DriveFile newerFirst :=
  ⟨fun _ _ _ hab hbc => Nat.le_trans hbc hab⟩

/-- The file-listing query predicate: parentID in parents and trashed=false. -/
def fileQueryPred (parentID : String) (f : DriveFile) : Bool :=
  f.parents.contains parentID && !f.trashed

def filesInFolder (d : DriveState) (parentID : String) : List DriveFile :=
  d.files.filter (fileQueryPred parentID)

structure RecentOut where
  files : List DriveFile
  st : DriveState
  calls : List DriveCall
deriving DecidableEq

/-- getRecentFiles: find-or-create the root upload folder, then list the
files under it, newest first, at most `count`. -/
def getRecentFiles (d : DriveState) (count : Nat) : RecentOut :=
  let fo := findOrCreateFolder d rootFolderName "root"
  ⟨(List.insertionSort newerFirst (filesInFolder fo.st fo.id)).take count,
    fo.st, fo.calls ++ [DriveCall.listFiles fo.id]⟩

inductive RecentReply
  | connectPrompt
  | reconnectPrompt
  | noReply
  | emptyState
  | carousel (entries : List (String × String))
deriving DecidableEq

structure RecentHandlerOut where
  reply : RecentReply
  drive : DriveState
  calls : List DriveCall
deriving DecidableEq

/-- The /recent_files webhook branch: fetch the Drive session (connect
prompt when no token is stored), list at most 5 recent files, reply with
the empty-state message or a carousel of (name, webViewLink) bubbles. -/
def handleRecentFiles (tokens : TokenMap) (userID : String) (d : DriveState) :
    RecentHandlerOut :=
  match getGoogleDriveService tokens userID with
  | Except.error GoErr.oauth2TokenNotFound => ⟨RecentReply.connectPrompt, d, []⟩
  | Except.error e =>
    if isGoogleAuthError (some e) then ⟨RecentReply.reconnectPrompt, d, []⟩
    else ⟨RecentReply.noReply, d, []⟩
  | Except.ok _ =>
    let ro := getRecentFiles d 5
    if ro.files.isEmpty then ⟨RecentReply.emptyState, ro.st, ro.calls⟩
    else ⟨RecentReply.carousel (ro.files.map (fun f => (f.name, f.webViewLink))), ro.st, ro.calls⟩

structure UploadOut where
  result : Except GoErr DriveFile
  st : DriveState
  calls : List DriveCall

/-- uploadToDrive: fetch the session, find-or-create "LINE Bot Uploads"
under root and the month subfolder under it, then create the file with the
caller-supplied name, the month folder as sole parent. -/
def uploadToDrive (tokens : TokenMap) (filename : String) (userID : String)
    (month : String) (d : DriveState) : UploadOut :=
  match getGoogleDriveService tokens userID with
  | Except.error e => ⟨Except.error e, d, []⟩
  | Except.ok _ =>
    let fo1 := findOrCreateFolder d rootFolderName "root"
    let fo2 := findOrCreateFolder fo1.st month fo1.id
    let fid := driveID fo2.st.nextID
    let file : DriveFile := ⟨fid, filename, [fo2.id], false, false, fo2.st.nextID,
      "https://drive.google.com/file/d/" ++ fid⟩
    ⟨Except.ok file, ⟨fo2.st.files ++ [file], fo2.st.nextID + 1⟩,
      fo1.calls ++ fo2.calls ++ [DriveCall.createFile filename fo2.id]⟩

/-- The folder-resolution part of uploadToDrive (steps 1 and 2), the spec's
ResolveFolder over the path [rootFolderName, month]. -/
structure ResolveOut where
  mainID : String
  monthID : String
  st : DriveState
  calls : List DriveCall
deriving DecidableEq

def resolveUploadFolders (d : DriveState) (month : String) : ResolveOut :=
  let fo1 := findOrCreateFolder d rootFolderName "root"
  let fo2 := findOrCreateFolder fo1.st month fo1.id
  ⟨fo1.id, fo2.id, fo2.st, fo1.calls ++ fo2.calls⟩

/-! ### Token revocation (/disconnect_drive) -/

inductive PostResult
  | transportErr (msg : String)
  | response (statusCode : Nat) (body : String)
deriving DecidableEq

inductive RevokeResult
  | ok
  | errNotFound
  | errRevokeRequest (msg : String)
  | errDeleteFailed
deriving DecidableEq

/-- The revocation URL: prefer the refresh token over the access token. -/
def revokeEndpoint (token : Token) : String :=
  "https://oauth2.googleapis.com/revoke?token=" ++
    (if token.refreshToken != "" then token.refreshToken else token.accessToken)

/-- revokeGoogleToken: load the token (NotFound error if absent), POST the
revocation (oracle `post`); a transport error is returned as a failure
before deletion, while any HTTP response — success or not — is followed by
local deletion. `deleteOk` models the Firestore Delete outcome: a failed
delete is surfaced as an error (the CRITICAL log-and-return branch) and
leaves the credential in place. -/
def revokeGoogleToken (post : String → PostResult) (deleteOk : Bool)
    (tokens : TokenMap) (userID : String) : RevokeResult × TokenMap :=
  match fsGet tokens userID with
  | none => (RevokeResult.errNotFound, tokens)
  | some token =>
    match post (revokeEndpoint token) with
    | PostResult.transportErr msg => (RevokeResult.errRevokeRequest msg, tokens)
    | PostResult.response _ _ =>
      if deleteOk then (RevokeResult.ok, fsDelete tokens userID)
      else (RevokeResult.errDeleteFailed, tokens)

/-! ### Media message dispatch -/

inductive MediaMessage
  | image (id : String)
  | video (id : String)
  | audio (id : String)
  | file (id : String) (fileName : String)
deriving DecidableEq

def mediaId : MediaMessage → String
  | .image i => i
  | .video i => i
  | .audio i => i
  | .file i _ => i

/-- The destination filename each webhook media case passes to
handleMediaUpload. -/
def mediaUploadFileName : MediaMessage → String
  | .image i => "line-bot-upload-" ++ i ++ ".jpg"
  | .video i => "line-bot-upload-" ++ i ++ ".mp4"
  | .audio i => "line-bot-upload-" ++ i ++ ".m4a"
  | .file _ fileName => fileName

/-! ### Store lemmas -/

theorem fsGet_fsSet_self {α : Type} (l : List (String × α)) (k : String) (v : α) :
    fsGet (fsSet l k v) k = some v := by
  simp [fsGet, fsSet, List.find?]

theorem fsGet_fsDelete_self {α : Type} (l : List (String × α)) (k : String) :
    fsGet (fsDelete l k) k = none := by
  induction l with
  | nil => rfl
  | cons p t ih =>
    by_cases h : p.1 = k
    · simp only [fsDelete, fsGet] at ih ⊢
      simp [List.filter_cons, h, ih]
    · simp only [fsDelete, fsGet] at ih ⊢
      simp [List.filter_cons, List.find?, h, ih]

theorem countKey_fsSet_self {α : Type} (l : List (String × α)) (k : String) (v : α) :
    countKey (fsSet l k v) k = 1 := by
  simp only [countKey, fsSet, List.filter_cons]
  have h1 : ((k, v).1 == k) = true := by simp
  rw [if_pos h1, List.filter_filter]
  have h2 : ∀ p : String × α, ¬((p.1 == k) && (p.1 != k) : Bool) := by
    intro p h
    simp only [Bool.and_eq_true, beq_iff_eq, bne_iff_ne] at h
    exact h.2 h.1
  rw [List.filter_eq_nil_iff.mpr (fun p _ => h2 p)]
  rfl

/-! ### Substring lemmas -/

theorem isPrefixOf_append_self (l t : List Char) : l.isPrefixOf (l ++ t) = true := by
  induction l with
  | nil => simp [List.isPrefixOf]
  | cons c l2 ih => simp [List.isPrefixOf, ih]

theorem subIn_append (pre sub post : List Char) :
    subIn sub (pre ++ (sub ++ post)) = true := by
  induction pre with
  | nil =>
    cases sub with
    | nil =>
      cases post with
      | nil => rfl
      | cons c t => simp [subIn, List.isPrefixOf]
    | cons s st2 =>
      rw [List.nil_append, List.cons_append, subIn, ← List.cons_append,
        isPrefixOf_append_self]
      rfl
  | cons c pre2 ih =>
    rw [List.cons_append, subIn, ih, Bool.or_true]

theorem strContains_append (a b c : String) : strContains (a ++ b ++ c) b = true := by
  show subIn b.data (a ++ b ++ c).data = true
  rw [String.data_append, String.data_append, List.append_assoc]
  exact subIn_append a.data b.data c.data

/-! ### base64 lemmas -/

theorem b64Char_mem (n : Nat) : b64Char n ∈ b64Alphabet := by
  have h : n % 64 < b64Alphabet.length := by
    have h64 : b64Alphabet.length = 64 := by decide
    omega
  rw [b64Char, List.getD_eq_getElem _ _ h]
  exact List.getElem_mem h

theorem isB64UrlChar_b64Char (n : Nat) : isB64UrlChar (b64Char n) = true := by
  simp only [isB64UrlChar, Bool.or_eq_true]
  exact Or.inl (List.elem_eq_true_of_mem (b64Char_mem n))

theorem b64EncodeGroups_chars :
    ∀ (l : List Nat), ∀ c ∈ b64EncodeGroups l, isB64UrlChar c = true := by
  intro l
  induction l using b64EncodeGroups.induct with
  | case1 b0 b1 b2 rest ih =>
    intro c hc
    rw [b64EncodeGroups] at hc
    simp only [List.mem_cons] at hc
    rcases hc with h | h | h | h | h
    all_goals first
      | (subst h; exact isB64UrlChar_b64Char _)
      | (exact ih c h)
  | case2 b0 b1 =>
    intro c hc
    rw [b64EncodeGroups] at hc
    simp only [List.mem_cons, List.not_mem_nil, or_false] at hc
    rcases hc with h | h | h | h
    all_goals subst h
    all_goals first
      | exact isB64UrlChar_b64Char _
      | decide
  | case3 b0 =>
    intro c hc
    rw [b64EncodeGroups] at hc
    simp only [List.mem_cons, List.not_mem_nil, or_false] at hc
    rcases hc with h | h | h | h
    all_goals subst h
    all_goals first
      | exact isB64UrlChar_b64Char _
      | decide
  | case4 =>
    intro c hc
    cases hc

theorem b64EncodeGroups_length :
    ∀ (l : List Nat), (b64EncodeGroups l).length = (l.length + 2) / 3 * 4 := by
  intro l
  induction l using b64EncodeGroups.induct with
  | case1 b0 b1 b2 rest ih =>
    rw [b64EncodeGroups]
    simp only [List.length_cons, ih]
    omega
  | case2 b0 b1 =>
    rw [b64EncodeGroups]
    simp
  | case3 b0 =>
    rw [b64EncodeGroups]
    simp
  | case4 => rfl

/-! ### Drive model lemmas -/

theorem driveID_ne_root (n : Nat) : driveID n ≠ "root" := by
  intro h
  have h2 : (driveID n).data = "root".data := by rw [h]
  rw [driveID, String.data_append] at h2
  have h3 : "id-".data = ['i', 'd', '-'] := rfl
  rw [h3] at h2
  simp at h2

theorem folderQueryPred_newFolder (d : DriveState) (name parentID : String) :
    folderQueryPred name parentID (newFolder d name parentID) = true := by
  simp [folderQueryPred, newFolder, List.contains]

theorem matchingFolders_mk_append (l1 l2 : List DriveFile) (nid : Nat) (name parentID : String) :
    matchingFolders ⟨l1 ++ l2, nid⟩ name parentID =
      l1.filter (folderQueryPred name parentID) ++ l2.filter (folderQueryPred name parentID) := by
  simp [matchingFolders, List.filter_append]

theorem findOrCreateFolder_of_found (d : DriveState) (name parentID : String)
    (g : DriveFile) (rest : List DriveFile)
    (h : matchingFolders d name parentID = g :: rest) :
    findOrCreateFolder d name parentID = ⟨g.id, d, [DriveCall.listFolders name parentID]⟩ := by
  rw [findOrCreateFolder, h]

theorem findOrCreateFolder_of_empty (d : DriveState) (name parentID : String)
    (h : matchingFolders d name parentID = []) :
    findOrCreateFolder d name parentID =
      ⟨driveID d.nextID, ⟨d.files ++ [newFolder d name parentID], d.nextID + 1⟩,
        [DriveCall.listFolders name parentID, DriveCall.createFolder name parentID]⟩ := by
  rw [findOrCreateFolder, h]

/-- After findOrCreateFolder, the query on the resulting state finds a
folder whose id is the returned one. -/
theorem findOrCreateFolder_post (d : DriveState) (name parentID : String) :
    ∃ g rest, matchingFolders (findOrCreateFolder d name parentID).st name parentID = g :: rest ∧
      g.id = (findOrCreateFolder d name parentID).id := by
  cases h : matchingFolders d name parentID with
  | cons f fs =>
    rw [findOrCreateFolder_of_found d name parentID f fs h]
    exact ⟨f, fs, h, rfl⟩
  | nil =>
    rw [findOrCreateFolder_of_empty d name parentID h]
    refine ⟨newFolder d name parentID, [], ?_, rfl⟩
    rw [matchingFolders_mk_append]
    have h2 : matchingFolders d name parentID = d.files.filter (folderQueryPred name parentID) := rfl
    rw [← h2, h, List.filter_cons, if_pos (folderQueryPred_newFolder d name parentID)]
    rfl

/-- The state returned by findOrCreateFolder extends the input files list. -/
theorem findOrCreateFolder_st_shape (d : DriveState) (name parentID : String) :
    ∃ extra, (findOrCreateFolder d name parentID).st.files = d.files ++ extra := by
  cases h : matchingFolders d name parentID with
  | cons f fs =>
    rw [findOrCreateFolder_of_found d name parentID f fs h]
    exact ⟨[], (List.append_nil d.files).symm⟩
  | nil =>
    rw [findOrCreateFolder_of_empty d name parentID h]
    exact ⟨[newFolder d name parentID], rfl⟩

/-- A nonempty query result keeps its head when the file table grows at
the end. -/
theorem matchingFolders_ext_stable (d d2 : DriveState) (extra : List DriveFile)
    (hfiles : d2.files = d.files ++ extra) (name parentID : String) (g : DriveFile)
    (rest : List DriveFile) (h : matchingFolders d name parentID = g :: rest) :
    ∃ rest2, matchingFolders d2 name parentID = g :: rest2 := by
  unfold matchingFolders at h ⊢
  rw [hfiles, List.filter_append, h, List.cons_append]
  exact ⟨rest ++ extra.filter (folderQueryPred name parentID), rfl⟩

theorem countMatching_ext (d d2 : DriveState) (extra : List DriveFile)
    (hfiles : d2.files = d.files ++ extra) (name parentID : String) :
    countMatching d2 name parentID =
      countMatching d name parentID + (extra.filter (folderQueryPred name parentID)).length := by
  unfold countMatching matchingFolders
  rw [hfiles, List.filter_append, List.length_append]

/-- A folder created under a parent other than "root" never matches the
root-level query, whatever its name. -/
theorem newFolder_root_query_false (dm : DriveState) (name2 parentID : String)
    (hpar : parentID ≠ "root") :
    folderQueryPred rootFolderName "root" (newFolder dm name2 parentID) = false := by
  have hbeq : ("root" == parentID) = false := beq_eq_false_iff_ne.mpr (Ne.symm hpar)
  simp [folderQueryPred, newFolder, List.contains, List.elem, hbeq]

/-- Calling findOrCreateFolder again on its own output state finds the
folder and changes nothing. -/
theorem findOrCreateFolder_idem (d : DriveState) (name parentID : String) :
    findOrCreateFolder (findOrCreateFolder d name parentID).st name parentID =
      ⟨(findOrCreateFolder d name parentID).id, (findOrCreateFolder d name parentID).st,
        [DriveCall.listFolders name parentID]⟩ := by
  obtain ⟨g, rest, hm, hid⟩ := findOrCreateFolder_post d name parentID
  rw [findOrCreateFolder_of_found _ name parentID g rest hm, hid]

/-! ### Callback handler lemmas -/

theorem oauthCallbackHandler_of_absent (exchange : String → Option Token) (w : Bool)
    (st : AppState) (nonce code : String) (h : fsGet st.states nonce = none) :
    oauthCallbackHandler exchange w st nonce code = ⟨CallbackResult.stateNotFound, st, false⟩ := by
  rw [oauthCallbackHandler, h]

theorem oauthCallbackHandler_states_deleted (exchange : String → Option Token) (w : Bool)
    (st : AppState) (nonce code : String) :
    fsGet (oauthCallbackHandler exchange w st nonce code).st.states nonce = none := by
  cases h : fsGet st.states nonce with
  | none => rw [oauthCallbackHandler_of_absent exchange w st nonce code h]; exact h
  | some sd =>
    rw [oauthCallbackHandler, h]
    cases he : exchange code with
    | none => exact fsGet_fsDelete_self st.states nonce
    | some tok =>
      cases w
      · exact fsGet_fsDelete_self st.states nonce
      · exact fsGet_fsDelete_self st.states nonce

theorem oauthCallbackHandler_success_case (exchange : String → Option Token)
    (st : AppState) (nonce code : String) (sd : StateDoc) (tok : Token)
    (hs : fsGet st.states nonce = some sd) (he : exchange code = some tok) :
    oauthCallbackHandler exchange true st nonce code =
      ⟨CallbackResult.success sd.user_id,
        ⟨fsDelete st.states nonce, fsSet st.tokens sd.user_id tok⟩, true⟩ := by
  rw [oauthCallbackHandler, hs, he]
  rfl

/-- With a stored token, the /recent_files branch reduces to the
empty-or-carousel decision over getRecentFiles. -/
theorem handleRecentFiles_ok (tokens : TokenMap) (u : String) (d : DriveState) (tok : Token)
    (hsvc : getGoogleDriveService tokens u = Except.ok tok) :
    handleRecentFiles tokens u d =
      (if (getRecentFiles d 5).files.isEmpty then
        ⟨RecentReply.emptyState, (getRecentFiles d 5).st, (getRecentFiles d 5).calls⟩
      else
        ⟨RecentReply.carousel ((getRecentFiles d 5).files.map (fun f => (f.name, f.webViewLink))),
          (getRecentFiles d 5).st, (getRecentFiles d 5).calls⟩) := by
  rw [handleRecentFiles, hsvc]

/-! ### Claim theorems -/

/-- C1: for every nonce, the callback succeeds at most once: after any one
invocation the stored CSRF state for that nonce is gone, and a second
invocation with the same nonce returns StateNotFound (HTTP 400), leaves the
stores untouched, and neither exchanges the code nor persists a credential. -/
theorem callback_state_single_use (exch1 exch2 : String → Option Token) (w1 w2 : Bool)
    (st : AppState) (nonce code1 code2 : String) :
    fsGet (oauthCallbackHandler exch1 w1 st nonce code1).st.states nonce = none ∧
    oauthCallbackHandler exch2 w2 (oauthCallbackHandler exch1 w1 st nonce code1).st nonce code2 =
      ⟨CallbackResult.stateNotFound, (oauthCallbackHandler exch1 w1 st nonce code1).st, false⟩ ∧
    CallbackResult.stateNotFound.httpStatus = 400 := by
  have h1 := oauthCallbackHandler_states_deleted exch1 w1 st nonce code1
  exact ⟨h1, oauthCallbackHandler_of_absent exch2 w2 _ nonce code2 h1, rfl⟩

/-- C9: the callback consumes the CSRF state even when the code exchange or
the credential write fails: after such a failed invocation the handler did
not succeed, the state document is gone, and a retry with the same nonce
fails StateNotFound. -/
theorem callback_consumes_state_on_failure (exch : String → Option Token) (w : Bool)
    (st : AppState) (nonce code : String) (sd : StateDoc)
    (hFound : fsGet st.states nonce = some sd)
    (hFail : exch code = none ∨ w = false) :
    (∀ u2, (oauthCallbackHandler exch w st nonce code).result ≠ CallbackResult.success u2) ∧
    fsGet (oauthCallbackHandler exch w st nonce code).st.states nonce = none ∧
    (∀ (exch2 : String → Option Token) (w2 : Bool) (code2 : String),
      (oauthCallbackHandler exch2 w2 (oauthCallbackHandler exch w st nonce code).st nonce
        code2).result = CallbackResult.stateNotFound) := by
  have hdel := oauthCallbackHandler_states_deleted exch w st nonce code
  refine ⟨?_, hdel, ?_⟩
  · intro u2 hres
    rw [oauthCallbackHandler, hFound] at hres
    rcases hFail with hf | hf
    · rw [hf] at hres
      simp at hres
    · cases he : exch code with
      | none =>
        rw [he] at hres
        simp at hres
      | some tok =>
        rw [he, hf] at hres
        simp at hres
  · intro exch2 w2 code2
    rw [oauthCallbackHandler_of_absent exch2 w2 _ nonce code2 hdel]

/-- C9 witness: a concrete failed callback (exchange refused) on a stored
nonce deletes the state and makes the retry fail StateNotFound. -/
theorem callback_consumes_state_on_failure_witness :
    fsGet (oauthCallbackHandler (fun _ => none) true ⟨[("N", ⟨"U", 0⟩)], []⟩ "N" "C").st.states
      "N" = none ∧
    (oauthCallbackHandler (fun _ => none) true
      (oauthCallbackHandler (fun _ => none) true ⟨[("N", ⟨"U", 0⟩)], []⟩ "N" "C").st "N"
      "C2").result = CallbackResult.stateNotFound := by
  have h := callback_consumes_state_on_failure (fun _ => none) true ⟨[("N", ⟨"U", 0⟩)], []⟩
    "N" "C" ⟨"U", 0⟩ (by decide) (Or.inl rfl)
  exact ⟨h.2.1, h.2.2 (fun _ => none) true "C2"⟩

/-- C2 counterexample: when the revocation POST itself fails at transport
level, revokeGoogleToken does not report success and the local credential
is still there afterwards (even though the local delete would succeed) —
refuting that any remote failure still leads to local deletion and
success. -/
theorem revoke_transport_failure_keeps_token :
    (revokeGoogleToken (fun _ => PostResult.transportErr "dial tcp: connection refused") true
        [("U", ⟨"at0", "rt0", "Bearer", 0⟩)] "U").1 ≠ RevokeResult.ok ∧
    fsGet (revokeGoogleToken (fun _ => PostResult.transportErr "dial tcp: connection refused")
        true [("U", ⟨"at0", "rt0", "Bearer", 0⟩)] "U").2 "U" =
      some ⟨"at0", "rt0", "Bearer", 0⟩ := by
  constructor
  · decide
  · decide

/-- C2 (amended): whenever the revoke request reaches the provider and an
HTTP response comes back — success or not — and the local deletion
succeeds, revokeGoogleToken reports success and the local credential is
deleted, so a subsequent lookup returns NotFound; if instead the local
deletion fails, the error is surfaced and the credential remains; a
transport-level failure of the POST aborts before deletion. -/
theorem revoke_response_deletes_locally (post : String → PostResult) (tokens : TokenMap)
    (u : String) (tok : Token) (statusCode : Nat) (body : String)
    (hTok : fsGet tokens u = some tok)
    (hResp : post (revokeEndpoint tok) = PostResult.response statusCode body) :
    (revokeGoogleToken post true tokens u).1 = RevokeResult.ok ∧
    fsGet (revokeGoogleToken post true tokens u).2 u = none ∧
    (revokeGoogleToken post false tokens u).1 = RevokeResult.errDeleteFailed ∧
    fsGet (revokeGoogleToken post false tokens u).2 u = some tok := by
  have key : revokeGoogleToken post true tokens u = (RevokeResult.ok, fsDelete tokens u) := by
    simp only [revokeGoogleToken, hTok]
    rw [hResp]
    rfl
  have key2 : revokeGoogleToken post false tokens u =
      (RevokeResult.errDeleteFailed, tokens) := by
    simp only [revokeGoogleToken, hTok]
    rw [hResp]
    rfl
  refine ⟨by rw [key], ?_, by rw [key2], ?_⟩
  · rw [key]
    exact fsGet_fsDelete_self tokens u
  · rw [key2]
    exact hTok

/-- C2 witness: a concrete non-success (503) revocation response with a
succeeding local delete ends in deletion and a success report, while a
failing local delete surfaces the error and keeps the credential. -/
theorem revoke_response_deletes_locally_witness :
    (revokeGoogleToken (fun _ => PostResult.response 503 "oops") true
        [("U", ⟨"at0", "rt0", "Bearer", 0⟩)] "U").1 = RevokeResult.ok ∧
    fsGet (revokeGoogleToken (fun _ => PostResult.response 503 "oops") true
        [("U", ⟨"at0", "rt0", "Bearer", 0⟩)] "U").2 "U" = none ∧
    (revokeGoogleToken (fun _ => PostResult.response 503 "oops") false
        [("U", ⟨"at0", "rt0", "Bearer", 0⟩)] "U").1 = RevokeResult.errDeleteFailed ∧
    fsGet (revokeGoogleToken (fun _ => PostResult.response 503 "oops") false
        [("U", ⟨"at0", "rt0", "Bearer", 0⟩)] "U").2 "U" = some ⟨"at0", "rt0", "Bearer", 0⟩ :=
  revoke_response_deletes_locally (fun _ => PostResult.response 503 "oops")
    [("U", ⟨"at0", "rt0", "Bearer", 0⟩)] "U" ⟨"at0", "rt0", "Bearer", 0⟩ 503 "oops"
    (by decide) rfl

/-- C4 counterexample: a googleapi error with status 400 whose message
contains invalid_grant is not classified as an auth error, refuting the
claimed biconditional (its message does report an invalid grant). -/
theorem classify_api_400_invalid_grant :
    isGoogleAuthError (some (GoErr.apiErr 400 "invalid_grant")) = false ∧
    strContains (errMessage (GoErr.apiErr 400 "invalid_grant")) "invalid_grant" = true := by
  constructor
  · rfl
  · decide

/-- C4 (amended): isGoogleAuthError is true exactly when the error is a
remote-API error with status 401 or 403, or a non-API error whose message
contains invalid_grant (API errors with other statuses are never
classified as auth errors, even if their message mentions invalid_grant);
and with no stored credential the token-not-found outcome is produced with
no remote Drive call (empty call trace, state untouched). -/
theorem classify_auth_and_no_credential :
    (∀ e : GoErr, isGoogleAuthError (some e) = true ↔
        ((∃ m, e = GoErr.apiErr 401 m) ∨ (∃ m, e = GoErr.apiErr 403 m) ∨
          ((∀ c m, e ≠ GoErr.apiErr c m) ∧
            strContains (errMessage e) "invalid_grant" = true))) ∧
    (∀ (tokens : TokenMap) (u : String), fsGet tokens u = none →
        getGoogleDriveService tokens u = Except.error GoErr.oauth2TokenNotFound) ∧
    (∀ (tokens : TokenMap) (u : String) (d : DriveState), fsGet tokens u = none →
        handleRecentFiles tokens u d = ⟨RecentReply.connectPrompt, d, []⟩) ∧
    (∀ (tokens : TokenMap) (fn u month : String) (d : DriveState), fsGet tokens u = none →
        uploadToDrive tokens fn u month d = ⟨Except.error GoErr.oauth2TokenNotFound, d, []⟩) := by
  refine ⟨?_, ?_, ?_, ?_⟩
  · intro e
    cases e with
    | apiErr c m =>
      constructor
      · intro h
        have h2 : c = 401 ∨ c = 403 := by
          simpa [isGoogleAuthError] using h
        rcases h2 with h2 | h2
        · exact Or.inl ⟨m, by rw [h2]⟩
        · exact Or.inr (Or.inl ⟨m, by rw [h2]⟩)
      · intro h
        rcases h with ⟨m2, hm⟩ | ⟨m2, hm⟩ | ⟨hne, _⟩
        · injection hm with hc hm2
          subst hc
          rfl
        · injection hm with hc hm2
          subst hc
          rfl
        · exact absurd rfl (hne c m)
    | oauth2TokenNotFound =>
      constructor
      · intro h
        exact absurd h (by decide)
      · rintro (⟨m, h⟩ | ⟨m, h⟩ | ⟨_, hc⟩)
        · exact GoErr.noConfusion h
        · exact GoErr.noConfusion h
        · exact absurd hc (by decide)
    | otherErr m =>
      constructor
      · intro h
        refine Or.inr (Or.inr ⟨fun c m2 h2 => GoErr.noConfusion h2, ?_⟩)
        simpa [isGoogleAuthError, errMessage] using h
      · rintro (⟨m2, h⟩ | ⟨m2, h⟩ | ⟨_, hc⟩)
        · exact GoErr.noConfusion h
        · exact GoErr.noConfusion h
        · simpa [isGoogleAuthError, errMessage] using hc
  · intro tokens u h
    rw [getGoogleDriveService, h]
  · intro tokens u d h
    rw [handleRecentFiles, getGoogleDriveService, h]
  · intro tokens fn u month d h
    rw [uploadToDrive, getGoogleDriveService, h]

/-- C4 witness: a 401 error is classified as auth-rejected, and with an
empty token store the not-found outcome appears with no Drive call. -/
theorem classify_auth_and_no_credential_witness :
    isGoogleAuthError (some (GoErr.apiErr 401 "x")) = true ∧
    getGoogleDriveService [] "U" = Except.error GoErr.oauth2TokenNotFound ∧
    handleRecentFiles [] "U" emptyDrive = ⟨RecentReply.connectPrompt, emptyDrive, []⟩ :=
  ⟨(classify_auth_and_no_credential.1 (GoErr.apiErr 401 "x")).mpr (Or.inl ⟨"x", rfl⟩),
    classify_auth_and_no_credential.2.1 [] "U" rfl,
    classify_auth_and_no_credential.2.2.1 [] "U" emptyDrive rfl⟩

/-- C6 counterexample: a file message keeps its original file name, which
need not contain the message id — refuting that every media kind's
destination filename includes the message's unique identifier. -/
theorem file_message_name_lacks_id :
    strContains (mediaUploadFileName (MediaMessage.file "123456" "report.pdf"))
      (mediaId (MediaMessage.file "123456" "report.pdf")) = false := by
  decide

/-- C6 (amended): for image, video and audio messages the destination
filename contains the originating message id; file messages use the
sender's original file name unchanged; and the upload orchestrator applies
the caller-supplied name verbatim, with no uniqueness enforcement. -/
theorem upload_filename_policy (m : MediaMessage) :
    (((∃ i, m = MediaMessage.image i) ∨ (∃ i, m = MediaMessage.video i) ∨
        (∃ i, m = MediaMessage.audio i)) →
      strContains (mediaUploadFileName m) (mediaId m) = true) ∧
    (∀ i fn, m = MediaMessage.file i fn → mediaUploadFileName m = fn) ∧
    (∀ (tokens : TokenMap) (u month : String) (d : DriveState) (f : DriveFile) (tok : Token),
      fsGet tokens u = some tok →
      (uploadToDrive tokens (mediaUploadFileName m) u month d).result = Except.ok f →
      f.name = mediaUploadFileName m) := by
  refine ⟨?_, ?_, ?_⟩
  · intro h
    cases m with
    | image i => exact strContains_append "line-bot-upload-" i ".jpg"
    | video i => exact strContains_append "line-bot-upload-" i ".mp4"
    | audio i => exact strContains_append "line-bot-upload-" i ".m4a"
    | file i fn =>
      rcases h with ⟨j, h⟩ | ⟨j, h⟩ | ⟨j, h⟩
      · exact MediaMessage.noConfusion h
      · exact MediaMessage.noConfusion h
      · exact MediaMessage.noConfusion h
  · intro i fn h
    subst h
    rfl
  · intro tokens u month d f tok hTok hres
    have hsvc : getGoogleDriveService tokens u = Except.ok tok := by
      rw [getGoogleDriveService, hTok]
    rw [uploadToDrive, hsvc] at hres
    injection hres with h3
    rw [← h3]

/-- C5: credential exclusivity — the connect branch stores the nonce
document and the callback persists the credential keyed by the user id
alone; after two full authorization cycles for the same user exactly one
credential entry exists for that user, holding the second token. -/
theorem credential_exclusivity (cfg : OAuthConfig) (st : AppState) (u : String)
    (b1 b2 : List Nat) (now1 now2 : Nat) (code1 code2 : String) (tok1 tok2 : Token)
    (exch1 exch2 : String → Option Token)
    (h1 : exch1 code1 = some tok1) (h2 : exch2 code2 = some tok2) :
    handleConnectDrive true cfg st u b1 now1 =
      some (authCodeURL cfg (generateState b1),
        { st with states := fsSet st.states (generateState b1) ⟨u, now1⟩ }) ∧
    (fullAuthCycle exch1 st u b1 now1 code1).result = CallbackResult.success u ∧
    (fullAuthCycle exch2 (fullAuthCycle exch1 st u b1 now1 code1).st u b2 now2 code2).result =
      CallbackResult.success u ∧
    countKey (fullAuthCycle exch2 (fullAuthCycle exch1 st u b1 now1 code1).st u b2 now2
      code2).st.tokens u = 1 ∧
    fsGet (fullAuthCycle exch2 (fullAuthCycle exch1 st u b1 now1 code1).st u b2 now2
      code2).st.tokens u = some tok2 := by
  have hc1 : fullAuthCycle exch1 st u b1 now1 code1 =
      ⟨CallbackResult.success u,
        ⟨fsDelete (fsSet st.states (generateState b1) ⟨u, now1⟩) (generateState b1),
          fsSet st.tokens u tok1⟩, true⟩ :=
    oauthCallbackHandler_success_case exch1
      { st with states := fsSet st.states (generateState b1) ⟨u, now1⟩ }
      (generateState b1) code1 ⟨u, now1⟩ tok1
      (fsGet_fsSet_self st.states (generateState b1) ⟨u, now1⟩) h1
  have hc2 : fullAuthCycle exch2
      (⟨fsDelete (fsSet st.states (generateState b1) ⟨u, now1⟩) (generateState b1),
        fsSet st.tokens u tok1⟩ : AppState) u b2 now2 code2 =
      ⟨CallbackResult.success u,
        ⟨fsDelete
            (fsSet (fsDelete (fsSet st.states (generateState b1) ⟨u, now1⟩) (generateState b1))
              (generateState b2) ⟨u, now2⟩) (generateState b2),
          fsSet (fsSet st.tokens u tok1) u tok2⟩, true⟩ :=
    oauthCallbackHandler_success_case exch2
      ⟨fsSet (fsDelete (fsSet st.states (generateState b1) ⟨u, now1⟩) (generateState b1))
          (generateState b2) ⟨u, now2⟩,
        fsSet st.tokens u tok1⟩
      (generateState b2) code2 ⟨u, now2⟩ tok2
      (fsGet_fsSet_self (fsDelete (fsSet st.states (generateState b1) ⟨u, now1⟩)
        (generateState b1)) (generateState b2) ⟨u, now2⟩) h2
  refine ⟨rfl, ?_, ?_, ?_, ?_⟩
  · rw [hc1]
  · rw [hc1]
    rw [hc2]
  · rw [hc1]
    rw [hc2]
    exact countKey_fsSet_self (fsSet st.tokens u tok1) u tok2
  · rw [hc1]
    rw [hc2]
    exact fsGet_fsSet_self (fsSet st.tokens u tok1) u tok2

/-- C5 witness: two concrete full cycles leave exactly one credential for
the user, the second one. -/
theorem credential_exclusivity_witness :
    countKey (fullAuthCycle (fun _ => some ⟨"a2", "r2", "B", 2⟩)
        (fullAuthCycle (fun _ => some ⟨"a1", "r1", "B", 1⟩) ⟨[], []⟩ "U" [0] 1 "c1").st
        "U" [1] 2 "c2").st.tokens "U" = 1 ∧
    fsGet (fullAuthCycle (fun _ => some ⟨"a2", "r2", "B", 2⟩)
        (fullAuthCycle (fun _ => some ⟨"a1", "r1", "B", 1⟩) ⟨[], []⟩ "U" [0] 1 "c1").st
        "U" [1] 2 "c2").st.tokens "U" = some ⟨"a2", "r2", "B", 2⟩ := by
  have h := credential_exclusivity ⟨"a", "c", "r", "s"⟩ ⟨[], []⟩ "U" [0] [1] 1 2 "c1" "c2"
    ⟨"a1", "r1", "B", 1⟩ ⟨"a2", "r2", "B", 2⟩ (fun _ => some ⟨"a1", "r1", "B", 1⟩)
    (fun _ => some ⟨"a2", "r2", "B", 2⟩) rfl rfl
  exact ⟨h.2.2.2.1, h.2.2.2.2⟩

/-- C8: the /connect_drive branch encodes the 16 random bytes URL-safe into
a 24-character nonce, stores the state record mapping the nonce to the
user with the creation time, replies with the authorization URL whose
state parameter is the nonce and which requests offline access, and fails
exactly when the state-store write fails. -/
theorem connect_drive_begin_authorization (cfg : OAuthConfig) (stateWriteOk : Bool)
    (st : AppState) (u : String) (bytes : List Nat) (now : Nat)
    (hlen : bytes.length = 16) :
    (generateState bytes).length = 24 ∧
    (∀ c ∈ (generateState bytes).data, isB64UrlChar c = true) ∧
    (handleConnectDrive stateWriteOk cfg st u bytes now = none ↔ stateWriteOk = false) ∧
    (∀ url st1, handleConnectDrive stateWriteOk cfg st u bytes now = some (url, st1) →
      fsGet st1.states (generateState bytes) = some ⟨u, now⟩ ∧
      url = authCodeURL cfg (generateState bytes) ∧
      ("state", generateState bytes) ∈ url.params ∧
      ("access_type", "offline") ∈ url.params) := by
  refine ⟨?_, ?_, ?_, ?_⟩
  · show (b64EncodeGroups bytes).length = 24
    rw [b64EncodeGroups_length, hlen]
  · exact b64EncodeGroups_chars bytes
  · cases stateWriteOk
    · simp [handleConnectDrive]
    · simp [handleConnectDrive]
  · intro url st1 h
    cases stateWriteOk
    · exact absurd h (by simp [handleConnectDrive])
    · have h2 : some (authCodeURL cfg (generateState bytes),
          { st with states := fsSet st.states (generateState bytes) ⟨u, now⟩ }) =
          some (url, st1) := h
      injection h2 with h3
      injection h3 with hurl hst
      subst hurl
      subst hst
      refine ⟨fsGet_fsSet_self st.states (generateState bytes) ⟨u, now⟩, rfl, ?_, ?_⟩
      · simp [authCodeURL, authCodeParams]
      · simp [authCodeURL, authCodeParams]

/-- C8 witness: a concrete 16-byte input yields a 24-character nonce, the
stored state record, and the state and access_type parameters. -/
theorem connect_drive_begin_authorization_witness :
    (generateState (List.replicate 16 0)).length = 24 ∧
    fsGet (fsSet ([] : StateMap) (generateState (List.replicate 16 0)) ⟨"U", 7⟩)
      (generateState (List.replicate 16 0)) = some ⟨"U", 7⟩ ∧
    ("state", generateState (List.replicate 16 0)) ∈
      (authCodeURL ⟨"a", "c", "r", "s"⟩ (generateState (List.replicate 16 0))).params ∧
    ("access_type", "offline") ∈
      (authCodeURL ⟨"a", "c", "r", "s"⟩ (generateState (List.replicate 16 0))).params := by
  have h := connect_drive_begin_authorization ⟨"a", "c", "r", "s"⟩ true ⟨[], []⟩ "U"
    (List.replicate 16 0) 7 (by simp)
  have h4 := h.2.2.2 (authCodeURL ⟨"a", "c", "r", "s"⟩ (generateState (List.replicate 16 0)))
    ⟨fsSet ([] : StateMap) (generateState (List.replicate 16 0)) ⟨"U", 7⟩, []⟩ rfl
  exact ⟨h.1, h4.1, h4.2.2.1, h4.2.2.2⟩

/-- C7: for a connected user, /recent_files lists at most 5 files, all
non-trashed children of the root upload folder, ordered newest-created
first; with an empty listing the reply is the empty-state message and no
carousel is constructed. -/
theorem recent_files_behavior (tokens : TokenMap) (u : String) (d : DriveState) (tok : Token)
    (hTok : fsGet tokens u = some tok) :
    (getRecentFiles d 5).files.length ≤ 5 ∧
    List.Sorted newerFirst (getRecentFiles d 5).files ∧
    (∀ f ∈ (getRecentFiles d 5).files,
      f.parents.contains (findOrCreateFolder d rootFolderName "root").id = true ∧
      f.trashed = false) ∧
    ((getRecentFiles d 5).files = [] →
      handleRecentFiles tokens u d =
        ⟨RecentReply.emptyState, (getRecentFiles d 5).st, (getRecentFiles d 5).calls⟩ ∧
      ∀ es, (handleRecentFiles tokens u d).reply ≠ RecentReply.carousel es) := by
  have hsvc : getGoogleDriveService tokens u = Except.ok tok := by
    rw [getGoogleDriveService, hTok]
  refine ⟨?_, ?_, ?_, ?_⟩
  · exact List.length_take_le 5 _
  · exact List.Pairwise.sublist (List.take_sublist 5 _)
      (List.sorted_insertionSort newerFirst _)
  · intro f hf
    have hf2 : f ∈ List.insertionSort newerFirst
        (filesInFolder (findOrCreateFolder d rootFolderName "root").st
          (findOrCreateFolder d rootFolderName "root").id) := List.mem_of_mem_take hf
    have hf3 := (List.mem_insertionSort newerFirst).mp hf2
    have hf4 := List.mem_filter.mp hf3
    have hf5 : fileQueryPred (findOrCreateFolder d rootFolderName "root").id f = true := hf4.2
    rw [fileQueryPred, Bool.and_eq_true] at hf5
    exact ⟨hf5.1, by simpa using hf5.2⟩
  · intro he
    have hEmpty : (getRecentFiles d 5).files.isEmpty = true := by rw [he]; rfl
    have hout : handleRecentFiles tokens u d =
        ⟨RecentReply.emptyState, (getRecentFiles d 5).st, (getRecentFiles d 5).calls⟩ := by
      rw [handleRecentFiles_ok tokens u d tok hsvc, if_pos hEmpty]
    refine ⟨hout, ?_⟩
    intro es
    rw [hout]
    exact fun hcar => RecentReply.noConfusion hcar

/-- C7 witness: a connected user with an empty Drive gets the empty-state
reply. -/
theorem recent_files_behavior_witness :
    (getRecentFiles emptyDrive 5).files = [] ∧
    handleRecentFiles [("U", ⟨"at0", "rt0", "Bearer", 0⟩)] "U" emptyDrive =
      ⟨RecentReply.emptyState, (getRecentFiles emptyDrive 5).st,
        (getRecentFiles emptyDrive 5).calls⟩ := by
  have h := recent_files_behavior [("U", ⟨"at0", "rt0", "Bearer", 0⟩)] "U" emptyDrive
    ⟨"at0", "rt0", "Bearer", 0⟩ (by decide)
  have he : (getRecentFiles emptyDrive 5).files = [] := by decide
  exact ⟨he, (h.2.2.2 he).1⟩

/-- C10: listing recent files is not read-only — for a connected user with
no root upload folder yet, the /recent_files handler creates the root
folder (a createFolder call appears in the trace and exactly one matching
folder exists afterwards) and then reports the empty-state reply. -/
theorem recent_files_creates_root_folder (tokens : TokenMap) (u : String) (d : DriveState)
    (tok : Token)
    (hTok : fsGet tokens u = some tok)
    (hNoRoot : matchingFolders d rootFolderName "root" = [])
    (hFresh : ∀ f ∈ d.files, f.parents.contains (driveID d.nextID) = false) :
    (handleRecentFiles tokens u d).reply = RecentReply.emptyState ∧
    countMatching (handleRecentFiles tokens u d).drive rootFolderName "root" = 1 ∧
    DriveCall.createFolder rootFolderName "root" ∈ (handleRecentFiles tokens u d).calls := by
  have hsvc : getGoogleDriveService tokens u = Except.ok tok := by
    rw [getGoogleDriveService, hTok]
  have hfo := findOrCreateFolder_of_empty d rootFolderName "root" hNoRoot
  have hFiles : filesInFolder (findOrCreateFolder d rootFolderName "root").st
      (findOrCreateFolder d rootFolderName "root").id = [] := by
    rw [hfo]
    show (d.files ++ [newFolder d rootFolderName "root"]).filter
      (fileQueryPred (driveID d.nextID)) = []
    rw [List.filter_append]
    have hpart1 : d.files.filter (fileQueryPred (driveID d.nextID)) = [] :=
      List.filter_eq_nil_iff.mpr (fun f hf hp => by
        rw [fileQueryPred, Bool.and_eq_true] at hp
        rw [hFresh f hf] at hp
        exact Bool.false_ne_true hp.1)
    have hbeq : (driveID d.nextID == "root") = false :=
      beq_eq_false_iff_ne.mpr (driveID_ne_root d.nextID)
    have hpart2 : [newFolder d rootFolderName "root"].filter
        (fileQueryPred (driveID d.nextID)) = [] := by
      simp [fileQueryPred, newFolder, List.contains, List.elem, hbeq]
    rw [hpart1, hpart2]
    rfl
  have hRecent : getRecentFiles d 5 =
      ⟨[], (findOrCreateFolder d rootFolderName "root").st,
        (findOrCreateFolder d rootFolderName "root").calls ++
          [DriveCall.listFiles (findOrCreateFolder d rootFolderName "root").id]⟩ := by
    show (⟨(List.insertionSort newerFirst (filesInFolder
        (findOrCreateFolder d rootFolderName "root").st
        (findOrCreateFolder d rootFolderName "root").id)).take 5,
      (findOrCreateFolder d rootFolderName "root").st,
      (findOrCreateFolder d rootFolderName "root").calls ++
        [DriveCall.listFiles (findOrCreateFolder d rootFolderName "root").id]⟩ : RecentOut) = _
    rw [hFiles]
    rfl
  have hout : handleRecentFiles tokens u d =
      ⟨RecentReply.emptyState, (getRecentFiles d 5).st, (getRecentFiles d 5).calls⟩ := by
    rw [handleRecentFiles_ok tokens u d tok hsvc, hRecent]
    rfl
  refine ⟨by rw [hout], ?_, ?_⟩
  · rw [hout]
    show countMatching (getRecentFiles d 5).st rootFolderName "root" = 1
    rw [hRecent]
    show countMatching (findOrCreateFolder d rootFolderName "root").st rootFolderName "root" = 1
    have hext : (findOrCreateFolder d rootFolderName "root").st.files =
        d.files ++ [newFolder d rootFolderName "root"] := by rw [hfo]
    rw [countMatching_ext d _ [newFolder d rootFolderName "root"] hext rootFolderName "root"]
    have hc0 : countMatching d rootFolderName "root" = 0 := by
      rw [countMatching, hNoRoot]
      rfl
    rw [hc0, List.filter_cons, if_pos (folderQueryPred_newFolder d rootFolderName "root")]
    rfl
  · rw [hout]
    show DriveCall.createFolder rootFolderName "root" ∈ (getRecentFiles d 5).calls
    rw [hRecent]
    show DriveCall.createFolder rootFolderName "root" ∈
      (findOrCreateFolder d rootFolderName "root").calls ++
        [DriveCall.listFiles (findOrCreateFolder d rootFolderName "root").id]
    rw [hfo]
    simp

/-- C10 witness: a concrete connected user with an empty Drive gets the
root folder created as a side effect of /recent_files. -/
theorem recent_files_creates_root_folder_witness :
    (handleRecentFiles [("U", ⟨"at0", "rt0", "Bearer", 0⟩)] "U" emptyDrive).reply =
      RecentReply.emptyState ∧
    countMatching (handleRecentFiles [("U", ⟨"at0", "rt0", "Bearer", 0⟩)] "U"
      emptyDrive).drive rootFolderName "root" = 1 ∧
    DriveCall.createFolder rootFolderName "root" ∈
      (handleRecentFiles [("U", ⟨"at0", "rt0", "Bearer", 0⟩)] "U" emptyDrive).calls := by
  have h := recent_files_creates_root_folder [("U", ⟨"at0", "rt0", "Bearer", 0⟩)] "U"
    emptyDrive ⟨"at0", "rt0", "Bearer", 0⟩ (by decide) (by decide)
    (fun f hf => absurd hf (List.not_mem_nil f))
  exact h

/-- C3: folder provisioning is idempotent — each segment is first queried
and created only on no match; resolving the upload path a second time
returns the same main and month ids, leaves the state unchanged, and
performs only the two list calls (no create); across both calls exactly
one folder exists per initially-missing path segment. -/
theorem folder_provisioning_idempotent :
    (∀ (d : DriveState) (name parentID : String),
      (matchingFolders d name parentID = [] →
        (findOrCreateFolder d name parentID).calls =
          [DriveCall.listFolders name parentID, DriveCall.createFolder name parentID]) ∧
      (∀ g rest, matchingFolders d name parentID = g :: rest →
        (findOrCreateFolder d name parentID).calls = [DriveCall.listFolders name parentID] ∧
        (findOrCreateFolder d name parentID).st = d)) ∧
    (∀ (d : DriveState) (month : String),
      resolveUploadFolders (resolveUploadFolders d month).st month =
        ⟨(resolveUploadFolders d month).mainID, (resolveUploadFolders d month).monthID,
          (resolveUploadFolders d month).st,
          [DriveCall.listFolders rootFolderName "root",
            DriveCall.listFolders month (resolveUploadFolders d month).mainID]⟩ ∧
      (countMatching d rootFolderName "root" = 0 →
        countMatching (resolveUploadFolders d month).st rootFolderName "root" = 1) ∧
      (countMatching (findOrCreateFolder d rootFolderName "root").st month
          (findOrCreateFolder d rootFolderName "root").id = 0 →
        countMatching (resolveUploadFolders d month).st month
          (resolveUploadFolders d month).mainID = 1)) := by
  constructor
  · intro d name parentID
    constructor
    · intro h
      rw [findOrCreateFolder_of_empty d name parentID h]
    · intro g rest h
      rw [findOrCreateFolder_of_found d name parentID g rest h]
      exact ⟨rfl, rfl⟩
  · intro d month
    obtain ⟨g, rest, hm, hid⟩ := findOrCreateFolder_post d rootFolderName "root"
    obtain ⟨extra, hext⟩ := findOrCreateFolder_st_shape
      (findOrCreateFolder d rootFolderName "root").st month
      (findOrCreateFolder d rootFolderName "root").id
    obtain ⟨rest2, hm2⟩ := matchingFolders_ext_stable
      (findOrCreateFolder d rootFolderName "root").st
      (findOrCreateFolder (findOrCreateFolder d rootFolderName "root").st month
        (findOrCreateFolder d rootFolderName "root").id).st
      extra hext rootFolderName "root" g rest hm
    have hA1 : findOrCreateFolder
        (findOrCreateFolder (findOrCreateFolder d rootFolderName "root").st month
          (findOrCreateFolder d rootFolderName "root").id).st rootFolderName "root" =
        ⟨(findOrCreateFolder d rootFolderName "root").id,
          (findOrCreateFolder (findOrCreateFolder d rootFolderName "root").st month
            (findOrCreateFolder d rootFolderName "root").id).st,
          [DriveCall.listFolders rootFolderName "root"]⟩ := by
      rw [findOrCreateFolder_of_found _ rootFolderName "root" g rest2 hm2, hid]
    have hA2 := findOrCreateFolder_idem (findOrCreateFolder d rootFolderName "root").st month
      (findOrCreateFolder d rootFolderName "root").id
    refine ⟨?_, ?_, ?_⟩
    · simp only [resolveUploadFolders, hA1, hA2]
      rfl
    · intro h0
      have hnil : matchingFolders d rootFolderName "root" = [] :=
        List.length_eq_zero.mp h0
      have hfo1 := findOrCreateFolder_of_empty d rootFolderName "root" hnil
      have hext1 : (findOrCreateFolder d rootFolderName "root").st.files =
          d.files ++ [newFolder d rootFolderName "root"] := by rw [hfo1]
      have hc1 : countMatching (findOrCreateFolder d rootFolderName "root").st
          rootFolderName "root" = 1 := by
        rw [countMatching_ext d _ [newFolder d rootFolderName "root"] hext1 rootFolderName
          "root", h0, List.filter_cons,
          if_pos (folderQueryPred_newFolder d rootFolderName "root")]
        rfl
      show countMatching (findOrCreateFolder (findOrCreateFolder d rootFolderName "root").st
        month (findOrCreateFolder d rootFolderName "root").id).st rootFolderName "root" = 1
      cases hm3 : matchingFolders (findOrCreateFolder d rootFolderName "root").st month
          (findOrCreateFolder d rootFolderName "root").id with
      | cons g2 rest3 =>
        rw [findOrCreateFolder_of_found _ month _ g2 rest3 hm3]
        exact hc1
      | nil =>
        simp only [findOrCreateFolder_of_empty _ month _ hm3]
        have hcount := countMatching_ext (findOrCreateFolder d rootFolderName "root").st
          ⟨(findOrCreateFolder d rootFolderName "root").st.files ++
            [newFolder (findOrCreateFolder d rootFolderName "root").st month
              (findOrCreateFolder d rootFolderName "root").id],
            (findOrCreateFolder d rootFolderName "root").st.nextID + 1⟩
          [newFolder (findOrCreateFolder d rootFolderName "root").st month
            (findOrCreateFolder d rootFolderName "root").id] rfl rootFolderName "root"
        rw [hcount, hc1]
        have hpar : (findOrCreateFolder d rootFolderName "root").id ≠ "root" := by
          rw [hfo1]
          exact driveID_ne_root d.nextID
        have hnf : folderQueryPred rootFolderName "root"
            (newFolder (findOrCreateFolder d rootFolderName "root").st month
              (findOrCreateFolder d rootFolderName "root").id) = false :=
          newFolder_root_query_false _ month _ hpar
        rw [List.filter_cons, if_neg (by rw [hnf]; simp)]
        rfl
    · intro h0
      have hnil2 : matchingFolders (findOrCreateFolder d rootFolderName "root").st month
          (findOrCreateFolder d rootFolderName "root").id = [] :=
        List.length_eq_zero.mp h0
      have hfo2 := findOrCreateFolder_of_empty _ month _ hnil2
      show countMatching (findOrCreateFolder (findOrCreateFolder d rootFolderName "root").st
        month (findOrCreateFolder d rootFolderName "root").id).st month
        (findOrCreateFolder d rootFolderName "root").id = 1
      simp only [hfo2]
      have hcount := countMatching_ext (findOrCreateFolder d rootFolderName "root").st
        ⟨(findOrCreateFolder d rootFolderName "root").st.files ++
          [newFolder (findOrCreateFolder d rootFolderName "root").st month
            (findOrCreateFolder d rootFolderName "root").id],
          (findOrCreateFolder d rootFolderName "root").st.nextID + 1⟩
        [newFolder (findOrCreateFolder d rootFolderName "root").st month
          (findOrCreateFolder d rootFolderName "root").id] rfl month
        (findOrCreateFolder d rootFolderName "root").id
      rw [hcount, h0, List.filter_cons,
        if_pos (folderQueryPred_newFolder (findOrCreateFolder d rootFolderName "root").st
          month (findOrCreateFolder d rootFolderName "root").id)]
      rfl

/-- C3 witness: from an empty Drive, resolving the upload path twice
returns identical results with only list calls the second time, and each
path segment exists exactly once. -/
theorem folder_provisioning_idempotent_witness :
    resolveUploadFolders (resolveUploadFolders emptyDrive "2025-06").st "2025-06" =
      ⟨(resolveUploadFolders emptyDrive "2025-06").mainID,
        (resolveUploadFolders emptyDrive "2025-06").monthID,
        (resolveUploadFolders emptyDrive "2025-06").st,
        [DriveCall.listFolders rootFolderName "root",
          DriveCall.listFolders "2025-06" (resolveUploadFolders emptyDrive "2025-06").mainID]⟩ ∧
    countMatching (resolveUploadFolders emptyDrive "2025-06").st rootFolderName "root" = 1 ∧
    countMatching (resolveUploadFolders emptyDrive "2025-06").st "2025-06"
      (resolveUploadFolders emptyDrive "2025-06").mainID = 1 ∧
    (findOrCreateFolder emptyDrive rootFolderName "root").calls =
      [DriveCall.listFolders rootFolderName "root",
        DriveCall.createFolder rootFolderName "root"] := by
  have h := folder_provisioning_idempotent
  have h2 := h.2 emptyDrive "2025-06"
  exact ⟨h2.1, h2.2.1 (by decide), h2.2.2 (by decide),
    (h.1 emptyDrive rootFolderName "root").1 (by decide)⟩

/-- C6 witness: an image message's filename contains its id, and a concrete
upload stores exactly that filename. -/
theorem upload_filename_policy_witness :
    strContains (mediaUploadFileName (MediaMessage.image "42"))
      (mediaId (MediaMessage.image "42")) = true ∧
    (uploadToDrive [("U", ⟨"at0", "rt0", "Bearer", 0⟩)]
        (mediaUploadFileName (MediaMessage.image "42")) "U" "2025-06" emptyDrive).result =
      Except.ok ⟨"id-2", mediaUploadFileName (MediaMessage.image "42"), ["id-1"], false, false, 2,
        "https://drive.google.com/file/d/id-2"⟩ ∧
    (⟨"id-2", mediaUploadFileName (MediaMessage.image "42"), ["id-1"], false, false, 2,
        "https://drive.google.com/file/d/id-2"⟩ : DriveFile).name =
      mediaUploadFileName (MediaMessage.image "42") := by
  refine ⟨(upload_filename_policy (MediaMessage.image "42")).1 (Or.inl ⟨"42", rfl⟩), ?_, ?_⟩
  · rfl
  · exact (upload_filename_policy (MediaMessage.image "42")).2.2
      [("U", ⟨"at0", "rt0", "Bearer", 0⟩)] "U" "2025-06" emptyDrive
      ⟨"id-2", mediaUploadFileName (MediaMessage.image "42"), ["id-1"], false, false, 2,
        "https://drive.google.com/file/d/id-2"⟩
      ⟨"at0", "rt0", "Bearer", 0⟩ (by decide) (by rfl)

end LinebotFile
